import Mathlib

/-!
Shallow embedding of the orchestration core of the poe2-trade repository:
the travel-request queue with its rate limiting and retry policy
(`src/services/travel-api.js`), the live-feed connection supervisor with
its batching and reconnection logic (`src/services/websocket-manager.js`),
and the single-flight automation state machine (`AutomationManager` in the
same file).  Machine integers are modelled as `Nat`; asynchronous timers
are modelled as explicit state; fallible operations return `Except` or
carry an explicit outcome parameter.
-/

namespace TravelAPI

/-- Classification record produced by `classifyHttpError` /
`classifyNetworkError` (travel-api.js): category tag, internal message,
user-facing message and the retryable flag. -/
structure ErrorInfo where
  etype : String
  message : String
  userMessage : String
  retryable : Bool
deriving Repr, DecidableEq

/-- Embeds `TravelAPI.classifyHttpError` (travel-api.js lines 258-324):
a switch on the HTTP status code; the default branch marks statuses
at or above 500 retryable. -/
def classifyHttpError (statusCode : Nat) (statusText : String) : ErrorInfo :=
  if statusCode = 400 then
    ⟨"bad_request", "Bad Request: " ++ statusText,
     "Invalid travel request. The hideout token may be expired or invalid.", false⟩
  else if statusCode = 401 then
    ⟨"unauthorized", "Unauthorized: " ++ statusText,
     "Authentication failed. Please check your POESESSID and cf_clearance cookies.", false⟩
  else if statusCode = 403 then
    ⟨"forbidden", "Forbidden: " ++ statusText,
     "Access denied. Your account may not have permission to travel to this hideout.", false⟩
  else if statusCode = 404 then
    ⟨"not_found", "Not Found: " ++ statusText,
     "Hideout not found. The seller may have moved or the hideout is no longer available.", false⟩
  else if statusCode = 429 then
    ⟨"rate_limit", "Rate Limited: " ++ statusText,
     "Too many requests. Please wait before trying again.", true⟩
  else if statusCode = 503 then
    ⟨"service_unavailable", "Service Unavailable: " ++ statusText,
     "PoE servers are busy. Please wait a moment and try again.", true⟩
  else if statusCode = 504 then
    ⟨"gateway_timeout", "Gateway Timeout: " ++ statusText,
     "Request timed out. The servers may be experiencing issues.", true⟩
  else
    ⟨"http_error", "HTTP " ++ toString statusCode ++ ": " ++ statusText,
     "Travel request failed with error " ++ toString statusCode ++ ".",
     decide (500 ≤ statusCode)⟩

/-- True when `pat` occurs as a substring of `s` (JavaScript
`String.prototype.includes` for a non-empty pattern). -/
def strHasSub (s pat : String) : Bool :=
  (s.splitOn pat).length != 1

/-- Shape of the exception object inspected by `classifyNetworkError`:
the optional error `code`, the `message`, and the optional
`response.status` / `response.statusText` of an HTTP-level failure. -/
structure NetError where
  code : Option String
  message : String
  responseStatus : Option Nat
  responseStatusText : String
deriving Repr, DecidableEq

/-- Embeds `TravelAPI.classifyNetworkError` (travel-api.js lines 327-366):
timeout, DNS/refused, reset, HTTP-response and unknown branches, in
source order. -/
def classifyNetworkError (e : NetError) : ErrorInfo :=
  if e.code = some "ECONNABORTED" ∨ strHasSub e.message "timeout" = true then
    ⟨"timeout", "Request timeout: " ++ e.message,
     "Request timed out. Please check your internet connection and try again.", true⟩
  else if e.code = some "ENOTFOUND" ∨ e.code = some "ECONNREFUSED" then
    ⟨"connection_error", "Connection error: " ++ e.message,
     "Cannot connect to PoE servers. Please check your internet connection.", true⟩
  else if e.code = some "ECONNRESET" ∨ strHasSub e.message "socket hang up" = true then
    ⟨"connection_reset", "Connection reset: " ++ e.message,
     "Connection was interrupted. Please try again.", true⟩
  else
    match e.responseStatus with
    | some st => classifyHttpError st e.responseStatusText
    | none =>
      ⟨"unknown_error",
       if e.message = "" then "Unknown error occurred" else e.message,
       "An unexpected error occurred. Please try again.", true⟩

/-- `this.maxRetries` (travel-api.js line 14). -/
def maxRetries : Nat := 3

/-- `this.retryDelay` (travel-api.js line 15), the backoff base in ms. -/
def retryDelay : Nat := 5000

/-- Embeds the scheduling decision of `TravelAPI.queueRetry`
(travel-api.js lines 393-424): for `attemptNumber` above `maxRetries`
nothing is scheduled; otherwise a retry timer is armed with delay
`retryDelay * attemptNumber`. -/
def queueRetry (attemptNumber : Nat) : Option Nat :=
  if attemptNumber > maxRetries then none
  else some (retryDelay * attemptNumber)

/-- Embeds the retry decision on a failed travel request
(travel-api.js lines 104-107 and 131-137): `queueRetry` is invoked with
attempt number 1 exactly when the classification is retryable. -/
def retryScheduledOnFailure (info : ErrorInfo) : Option Nat :=
  if info.retryable then queueRetry 1 else none

/-- `this.rateLimitDelay` (travel-api.js line 9), in ms. -/
def rateLimitDelay : Nat := 1000

/-- One entry of `this.requestQueue`: how long the request function runs
and whether its promise resolves.  (A resolved request updates
`lastRequestTime`; a rejected one does not — travel-api.js lines
194-202.) -/
structure QueuedRequest where
  duration : Nat
  succeeds : Bool
deriving Repr, DecidableEq

/-- Embeds the loop of `TravelAPI.processQueue` (travel-api.js lines
176-206) as explicit time passing: `now` is the current clock, `last` is
`this.lastRequestTime`.  If less than `rateLimitDelay` has elapsed since
the last completed request the loop sleeps for the difference, then runs
the next request to completion.  Returns the (start, completion) time of
each request, in submission order. -/
def processQueue : Nat → Nat → List QueuedRequest → List (Nat × Nat)
  | _, _, [] => []
  | now, last, r :: rs =>
    let start := if now - last < rateLimitDelay
      then now + (rateLimitDelay - (now - last)) else now
    let fin := start + r.duration
    (start, fin) :: processQueue fin (if r.succeeds then fin else last) rs

theorem processQueue_length (now last : Nat) (rs : List QueuedRequest) :
    (processQueue now last rs).length = rs.length := by
  induction rs generalizing now last with
  | nil => rfl
  | cons r rs ih => simp [processQueue, ih]

theorem processQueue_all_spaced (rs : List QueuedRequest) :
    ∀ now last, last ≤ now →
    ∀ p ∈ processQueue now last rs, last + rateLimitDelay ≤ p.1 ∧ p.1 ≤ p.2 := by
  induction rs with
  | nil => intro now last _ p hp; simp [processQueue] at hp
  | cons r rs ih =>
    intro now last h p hp
    simp only [processQueue, List.mem_cons] at hp
    rcases hp with hp | hp
    · subst hp
      constructor
      · by_cases hlt : now - last < rateLimitDelay <;> simp [hlt] <;> omega
      · simp
    · set start := if now - last < rateLimitDelay
        then now + (rateLimitDelay - (now - last)) else now with hstart
      have hns : now ≤ start := by
        by_cases hlt : now - last < rateLimitDelay <;> simp [hstart, hlt]
      have hls : last + rateLimitDelay ≤ start := by
        by_cases hlt : now - last < rateLimitDelay <;> simp [hstart, hlt] <;> omega
      by_cases hs : r.succeeds
      · have := ih (start + r.duration) (start + r.duration) le_rfl p (by
          simpa [hs] using hp)
        omega
      · have hsf : (if r.succeeds then start + r.duration else last) = last := by
          simp [hs]
        have := ih (start + r.duration) last (by omega) p (by
          simpa [hsf] using hp)
        omega

/-- C2: the travel request queue executes requests one at a time in
submission order, and between the completion of one request and the
start of the next at least `rateLimitDelay` elapses, so no two
operations complete closer together than `rateLimitDelay`.  The
hypothesis that every queued request resolves holds for travel
requests, whose `executeTravelRequest` traps all errors and always
resolves to a result object. -/
theorem processQueue_spacing (now last : Nat) (rs : List QueuedRequest)
    (hmono : last ≤ now) (hres : ∀ r ∈ rs, r.succeeds = true) :
    (processQueue now last rs).length = rs.length ∧
    List.Chain' (fun a b : Nat × Nat =>
      a.2 + rateLimitDelay ≤ b.1 ∧ a.2 + rateLimitDelay ≤ b.2)
      (processQueue now last rs) ∧
    ∀ p ∈ processQueue now last rs, p.1 ≤ p.2 := by
  refine ⟨processQueue_length now last rs, ?_,
    fun p hp => (processQueue_all_spaced rs now last hmono p hp).2⟩
  induction rs generalizing now last with
  | nil => simp [processQueue]
  | cons r rs ih =>
    have hr : r.succeeds = true := hres r (by simp)
    have hrs : ∀ q ∈ rs, q.succeeds = true := fun q hq => hres q (by simp [hq])
    simp only [processQueue, hr, if_true]
    rw [List.chain'_cons']
    refine ⟨fun b hb => ?_, ih _ _ le_rfl hrs⟩
    have hmem := List.mem_of_mem_head? hb
    have := processQueue_all_spaced rs _ _ le_rfl b hmem
    exact ⟨this.1, by omega⟩

theorem processQueue_spacing_witness :
    (processQueue 5 0 [⟨300, true⟩, ⟨0, true⟩, ⟨47, true⟩]).length = 3 ∧
    List.Chain' (fun a b : Nat × Nat =>
      a.2 + rateLimitDelay ≤ b.1 ∧ a.2 + rateLimitDelay ≤ b.2)
      (processQueue 5 0 [⟨300, true⟩, ⟨0, true⟩, ⟨47, true⟩]) ∧
    ∀ p ∈ processQueue 5 0 [⟨300, true⟩, ⟨0, true⟩, ⟨47, true⟩], p.1 ≤ p.2 :=
  processQueue_spacing 5 0 [⟨300, true⟩, ⟨0, true⟩, ⟨47, true⟩]
    (by decide) (by decide)

/-- C6: a retryable failure schedules a retry whose delay is the base
delay times the attempt number (strictly increasing across consecutive
scheduled attempts); no retry is scheduled once the attempt number
exceeds `maxRetries`; a non-retryable classification never schedules a
retry. -/
theorem retry_backoff_policy (n : Nat) (info : ErrorInfo) :
    (1 ≤ n → n ≤ maxRetries →
      queueRetry n = some (retryDelay * n) ∧
      ∀ d d', queueRetry n = some d → queueRetry (n + 1) = some d' → d < d') ∧
    (maxRetries < n → queueRetry n = none) ∧
    (info.retryable = false → retryScheduledOnFailure info = none) := by
  refine ⟨fun h1 h2 => ⟨?_, fun d d' hd hd' => ?_⟩, fun h => ?_, fun h => ?_⟩
  · simp [queueRetry]; omega
  · simp only [queueRetry, maxRetries, retryDelay] at hd hd'
    by_cases hb : n > 3
    · simp [hb] at hd
    · by_cases hb' : n + 1 > 3
      · simp [hb'] at hd'
      · simp [hb, hb'] at hd hd'
        omega
  · simp [queueRetry]; omega
  · simp [retryScheduledOnFailure, h]

theorem retry_backoff_policy_witness :
    queueRetry 2 = some (retryDelay * 2) ∧
    queueRetry 4 = none ∧
    retryScheduledOnFailure ⟨"unauthorized", "m", "u", false⟩ = none :=
  ⟨((retry_backoff_policy 2 ⟨"unauthorized", "m", "u", false⟩).1
      (by decide) (by decide)).1,
   (retry_backoff_policy 4 ⟨"unauthorized", "m", "u", false⟩).2.1 (by decide),
   (retry_backoff_policy 2 ⟨"unauthorized", "m", "u", false⟩).2.2 rfl⟩

/-- C7: error classification is a pure total function; `classifyHttpError`
marks exactly 429 and the statuses at or above 500 retryable (so 400,
401, 403, 404 and every other status below 500 are not), and
`classifyNetworkError` marks timeout, DNS/connection-refused,
connection-reset and uncategorized (no HTTP response attached) errors
retryable. -/
theorem classify_retryable (st : Nat) (stTxt : String) (e : NetError) :
    ((classifyHttpError st stTxt).retryable = true ↔ st = 429 ∨ 500 ≤ st) ∧
    ((e.code = some "ECONNABORTED" ∨ strHasSub e.message "timeout" = true) →
      (classifyNetworkError e).retryable = true) ∧
    ((e.code = some "ENOTFOUND" ∨ e.code = some "ECONNREFUSED") →
      (classifyNetworkError e).retryable = true) ∧
    ((e.code = some "ECONNRESET" ∨ strHasSub e.message "socket hang up" = true) →
      (classifyNetworkError e).retryable = true) ∧
    (e.responseStatus = none → (classifyNetworkError e).retryable = true) := by
  refine ⟨?_, fun h => ?_, fun h => ?_, fun h => ?_, fun h => ?_⟩
  · unfold classifyHttpError
    split_ifs <;> simp_all
  · rw [classifyNetworkError, if_pos h]
  · unfold classifyNetworkError
    split_ifs <;> rcases h with h | h <;> simp_all
  · unfold classifyNetworkError
    split_ifs <;> rcases h with h | h <;> simp_all
  · unfold classifyNetworkError
    split_ifs <;> simp [h]

theorem classify_retryable_witness :
    (classifyHttpError 503 "Service Unavailable").retryable = true ∧
    (classifyNetworkError ⟨some "ECONNRESET", "socket hang up", none, ""⟩).retryable
      = true :=
  ⟨(classify_retryable 503 "Service Unavailable"
      ⟨some "ECONNRESET", "socket hang up", none, ""⟩).1.mpr (Or.inr (by decide)),
   (classify_retryable 503 "Service Unavailable"
      ⟨some "ECONNRESET", "socket hang up", none, ""⟩).2.2.2.1 (Or.inl rfl)⟩

end TravelAPI

namespace WSM

/-- WebSocket readyState values. -/
inductive ReadyState where
  | connecting
  | opened
  | closing
  | closedS
deriving Repr, DecidableEq

/-- One entry of `this.connections` (websocket-manager.js lines 64-73):
the socket (its readyState, `none` when absent) and the per-connection
`reconnectAttempts` counter, initialised to 0 on every `connect`. -/
structure ConnEntry where
  socketState : Option ReadyState
  reconnectAttempts : Nat
deriving Repr, DecidableEq

/-- The `connections` map, keyed by search id, in insertion order. -/
abbrev ConnMap := List (String × ConnEntry)

def getConn : ConnMap → String → Option ConnEntry
  | [], _ => none
  | (k, v) :: rest, id => if k = id then some v else getConn rest id

def setConn : ConnMap → String → ConnEntry → ConnMap
  | [], id, c => [(id, c)]
  | (k, v) :: rest, id, c =>
    if k = id then (id, c) :: rest else (k, v) :: setConn rest id c

def delConn : ConnMap → String → ConnMap
  | [], _ => []
  | (k, v) :: rest, id => if k = id then rest else (k, v) :: delConn rest id

/-- `this.maxReconnectAttempts` (websocket-manager.js line 15). -/
def maxReconnectAttempts : Nat := 5

/-- The connection object built inside `connect` (lines 64-73): a fresh
socket and `reconnectAttempts: 0`. -/
def freshEntry : ConnEntry := ⟨some ReadyState.connecting, 0⟩

/-- Embeds `WebSocketManager.connect` for a given search id (lines
38-111, the state transition under the connection mutex): if a tracked
connection with a present, non-closed socket exists, return the id
without touching the map; otherwise store a fresh connection object. -/
def connect (m : ConnMap) (id : String) : ConnMap × String :=
  match getConn m id with
  | some c =>
    match c.socketState with
    | some st =>
      if st ≠ ReadyState.closedS then (m, id) else (setConn m id freshEntry, id)
    | none => (setConn m id freshEntry, id)
  | none => (setConn m id freshEntry, id)

/-- Embeds `WebSocketManager.handleConnectionClose` (lines 396-439):
untracked ids and fatal close codes (429, 404, 401) do nothing; below
`maxReconnectAttempts` the counter is incremented and a reconnect is
scheduled (`true`); otherwise the id is removed from the map. -/
def handleConnectionClose (m : ConnMap) (id : String) (code : Nat) :
    ConnMap × Bool :=
  match getConn m id with
  | none => (m, false)
  | some c =>
    if code = 429 ∨ code = 404 ∨ code = 401 then (m, false)
    else if c.reconnectAttempts < maxReconnectAttempts then
      (setConn m id { c with reconnectAttempts := c.reconnectAttempts + 1 }, true)
    else (delConn m id, false)

/-- By the time the close handler runs, the socket's readyState is
CLOSED. -/
def socketNowClosed (m : ConnMap) (id : String) : ConnMap :=
  match getConn m id with
  | some c => setConn m id { c with socketState := some ReadyState.closedS }
  | none => m

/-- A socket close event: the socket becomes CLOSED, then
`handleConnectionClose` runs (lines 99-104). -/
def closeEvent (m : ConnMap) (id : String) (code : Nat) : ConnMap × Bool :=
  handleConnectionClose (socketNowClosed m id) id code

/-- The reconnect timer callback (lines 429-434): if the id is still
tracked, call `connect` again. -/
def reconnectFire (m : ConnMap) (id : String) : ConnMap :=
  if (getConn m id).isSome then (connect m id).1 else m

/-- `n` rounds of: the socket closes with a non-fatal code, then the
scheduled reconnect fires.  Returns the final map and the total number
of reconnection attempts scheduled. -/
def closeReconnectCycles (id : String) : Nat → ConnMap → ConnMap × Nat
  | 0, m => (m, 0)
  | n + 1, m =>
    let r1 := closeEvent m id 1006
    let m2 := reconnectFire r1.1 id
    let r2 := closeReconnectCycles id n m2
    (r2.1, (if r1.2 then 1 else 0) + r2.2)

/-- C3: `connect` is idempotent per id — when a tracked connection with
a present, non-closed socket exists, `connect` returns the id and
leaves the connection map (hence the existing socket) unchanged. -/
theorem connect_idempotent_live (m : ConnMap) (id : String) (c : ConnEntry)
    (st : ReadyState) (hc : getConn m id = some c)
    (hs : c.socketState = some st) (hne : st ≠ ReadyState.closedS) :
    connect m id = (m, id) := by
  simp [connect, hc, hs, hne]

theorem connect_idempotent_live_witness :
    connect [("a", ⟨some ReadyState.opened, 2⟩)] "a" =
      ([("a", ⟨some ReadyState.opened, 2⟩)], "a") :=
  connect_idempotent_live _ "a" ⟨some ReadyState.opened, 2⟩ ReadyState.opened
    (by decide) rfl (by decide)

/-- C4 is violated by the code: each scheduled reconnect calls `connect`,
which replaces the map entry with a fresh connection object whose
`reconnectAttempts` is 0, so the counter never reaches
`maxReconnectAttempts`.  After six close/reconnect rounds the code has
performed six reconnection attempts (more than the maximum of five) and
the id is still tracked; the exhaustion branch that would remove the id
is unreachable. -/
theorem reconnect_attempts_unbounded :
    (closeReconnectCycles "a" 6 [("a", freshEntry)]).2 = 6 ∧
    getConn (closeReconnectCycles "a" 6 [("a", freshEntry)]).1 "a" =
      some freshEntry ∧ 6 > maxReconnectAttempts := by
  refine ⟨?_, ?_, by decide⟩ <;> rfl

/-- The `200` ms batching delay of `handleMessage`
(websocket-manager.js line 222). -/
def coalescingDelay : Nat := 200

/-- The per-search batching state of `handleMessage`: whether the
connection is still tracked, the `pendingFetches` entry for this search
id, and the list of id batches handed to `fetchItemDetails` so far. -/
structure BatchState where
  connected : Bool
  pending : Option (List String)
  fetches : List (List String)
deriving Repr, DecidableEq

/-- Embeds the "new ids" handling of `WebSocketManager.handleMessage`
(lines 156-179): for a disconnected search the message is ignored and
no timer is armed; otherwise the ids are appended to the (possibly
freshly created) pending batch and a 200 ms flush timer is armed —
unconditionally, on every notification. -/
def handleNewIds (s : BatchState) (ids : List String) : BatchState × Bool :=
  if s.connected then
    ({ s with pending := some (s.pending.getD [] ++ ids) }, true)
  else (s, false)

/-- Embeds the flush timer callback of `handleMessage` (lines 179-222):
for a disconnected search the pending entry is deleted; otherwise, if
the pending batch exists and is non-empty it is cleared (to `[]`) and
one details fetch is issued for it, else nothing happens. -/
def fireBatchTimer (s : BatchState) : BatchState :=
  if s.connected then
    match s.pending with
    | some l =>
      if l = [] then s
      else { s with pending := some [], fetches := s.fetches ++ [l] }
    | none => s
  else { s with pending := none }

/-- Two "new ids" notifications at times `t1 ≤ t2`, each arming a flush
timer `coalescingDelay` later; the events are processed in time order,
so when `t2 < t1 + coalescingDelay` the second notification lands
before the first timer fires. -/
def twoNotifySim (t1 t2 : Nat) (ids1 ids2 : List String) (s0 : BatchState) :
    BatchState :=
  if t2 < t1 + coalescingDelay then
    fireBatchTimer (fireBatchTimer (handleNewIds (handleNewIds s0 ids1).1 ids2).1)
  else
    fireBatchTimer (handleNewIds (fireBatchTimer (handleNewIds s0 ids1).1) ids2).1

/-- C5: two "new ids" notifications for the same tracked search arriving
within one coalescing window produce exactly one details fetch, whose
id list is the concatenation of the two notifications' ids in arrival
order; the second armed timer finds the cleared batch and issues no
second fetch. -/
theorem coalesced_batch_single_fetch (t1 t2 : Nat) (ids1 ids2 : List String)
    (fs : List (List String)) (_h1 : t1 ≤ t2) (h2 : t2 < t1 + coalescingDelay)
    (hne : ids1 ++ ids2 ≠ []) :
    twoNotifySim t1 t2 ids1 ids2 ⟨true, none, fs⟩ =
      ⟨true, some [], fs ++ [ids1 ++ ids2]⟩ := by
  simp [twoNotifySim, h2, handleNewIds, fireBatchTimer, hne]

theorem coalesced_batch_single_fetch_witness :
    twoNotifySim 0 100 ["i1", "i2"] ["i3"] ⟨true, none, []⟩ =
      ⟨true, some [], [["i1", "i2", "i3"]]⟩ :=
  coalesced_batch_single_fetch 0 100 ["i1", "i2"] ["i3"] []
    (by decide) (by decide) (by decide)

/-- Outcome of one HTTP attempt inside `fetchItemDetails`: a response
(with or without a `result` field), an HTTP error response with status
and optional `retry-after` header, or a network-level error. -/
inductive FetchOutcome where
  | ok (result : Option (List String))
  | httpErr (status : Nat) (retryAfter : Option Nat)
  | netErr (msg : String)
deriving Repr, DecidableEq

/-- What one call to `fetchItemDetails` did: the returned item list or
the thrown error, how many HTTP requests it issued, and how long it
waited between them (ms). -/
structure FetchRun where
  outcome : Except String (List String)
  requests : Nat
  waitedMs : Nat

/-- Default `retry-after` of 2 seconds (websocket-manager.js line 299). -/
def defaultRetryAfter : Nat := 2

/-- Embeds `WebSocketManager.fetchItemDetails` (lines 236-324) over the
outcomes of its first and (possible) second HTTP attempt: a missing
`result` field yields `[]`; a 429 or 400 error response waits
`retry-after` seconds (default 2) and retries exactly once, rethrowing
the original error unless the retry yields a `result`; any other error
is rethrown immediately. -/
def fetchItemDetails (first retry : FetchOutcome) : FetchRun :=
  match first with
  | FetchOutcome.ok (some r) => ⟨Except.ok r, 1, 0⟩
  | FetchOutcome.ok none => ⟨Except.ok [], 1, 0⟩
  | FetchOutcome.httpErr st ra =>
    if st = 429 ∨ st = 400 then
      let wait := ra.getD defaultRetryAfter * 1000
      match retry with
      | FetchOutcome.ok (some r) => ⟨Except.ok r, 2, wait⟩
      | _ => ⟨Except.error ("Request failed with status code " ++ toString st),
              2, wait⟩
    else
      ⟨Except.error ("Request failed with status code " ++ toString st), 1, 0⟩
  | FetchOutcome.netErr m => ⟨Except.error m, 1, 0⟩

/-- The `websocket:message` payload emitted for a flushed batch
(lines 194-219). -/
structure EmitMessage where
  items : List String
  itemIds : List String
  error : Option String
deriving Repr, DecidableEq

/-- Embeds the emission after a batch's details fetch (lines 191-220):
on success the fetched items are emitted; if the fetch threw, the
caller's catch still emits the batch's ids with an empty item list,
annotated with the error. -/
def flushEmit (itemIds : List String) (r : Except String (List String)) :
    EmitMessage :=
  match r with
  | Except.ok items => ⟨items, itemIds, none⟩
  | Except.error e => ⟨[], itemIds, some e⟩

/-- Embeds the auto-travel trigger after a successful batch fetch
(lines 204-208): only the first fetched item triggers automation. -/
def autoTravelCalls (items : List String) : List String :=
  match items with
  | [] => []
  | i :: _ => [i]

/-- C9: a details fetch whose first attempt fails with a 429 or 400
response waits the server-suggested retry interval (default 2 s) and
retries exactly once — and no input ever causes more than two attempts;
if the retry also fails, the flush handler still emits the batch's ids
with an empty item list annotated with the error, so the pipeline is
not blocked. -/
theorem fetch_retry_once (st : Nat) (ra : Option Nat) (retry : FetchOutcome)
    (itemIds : List String) (h : st = 429 ∨ st = 400) :
    (fetchItemDetails (FetchOutcome.httpErr st ra) retry).requests = 2 ∧
    (fetchItemDetails (FetchOutcome.httpErr st ra) retry).waitedMs =
      ra.getD defaultRetryAfter * 1000 ∧
    (∀ f r, (fetchItemDetails f r).requests ≤ 2) ∧
    (∀ st2 ra2, retry = FetchOutcome.httpErr st2 ra2 →
      ∃ e, (fetchItemDetails (FetchOutcome.httpErr st ra) retry).outcome =
          Except.error e ∧
        flushEmit itemIds
            (fetchItemDetails (FetchOutcome.httpErr st ra) retry).outcome =
          ⟨[], itemIds, some e⟩) := by
  refine ⟨?_, ?_, ?_, ?_⟩
  · cases retry with
    | ok r => cases r <;> simp [fetchItemDetails, h]
    | httpErr st2 ra2 => simp [fetchItemDetails, h]
    | netErr m => simp [fetchItemDetails, h]
  · cases retry with
    | ok r => cases r <;> simp [fetchItemDetails, h]
    | httpErr st2 ra2 => simp [fetchItemDetails, h]
    | netErr m => simp [fetchItemDetails, h]
  · intro f r
    cases f with
    | ok res => cases res <;> simp [fetchItemDetails]
    | httpErr s2 a2 =>
      by_cases hc : s2 = 429 ∨ s2 = 400
      · cases r with
        | ok res => cases res <;> simp [fetchItemDetails, hc]
        | httpErr s3 a3 => simp [fetchItemDetails, hc]
        | netErr m => simp [fetchItemDetails, hc]
      · simp [fetchItemDetails, hc]
    | netErr m => simp [fetchItemDetails]
  · intro st2 ra2 hr
    subst hr
    exact ⟨"Request failed with status code " ++ toString st,
      by simp [fetchItemDetails, h], by simp [fetchItemDetails, flushEmit, h]⟩

theorem fetch_retry_once_witness :
    (fetchItemDetails (FetchOutcome.httpErr 429 none)
        (FetchOutcome.httpErr 429 none)).requests = 2 ∧
    (fetchItemDetails (FetchOutcome.httpErr 429 none)
        (FetchOutcome.httpErr 429 none)).waitedMs = 2000 :=
  ⟨(fetch_retry_once 429 none (FetchOutcome.httpErr 429 none) ["a"]
      (Or.inl rfl)).1,
   (fetch_retry_once 429 none (FetchOutcome.httpErr 429 none) ["a"]
      (Or.inl rfl)).2.1⟩

/-- C10: for a flushed batch whose details fetch returns a non-empty
item list, the automation trigger fires exactly once, for the first
item of the list; the remaining items never trigger automation (and no
batch ever produces more than one trigger). -/
theorem trigger_first_item_only (items : List String) (i : String)
    (rest : List String) :
    (items = i :: rest → autoTravelCalls items = [i]) ∧
    (autoTravelCalls items).length ≤ 1 := by
  constructor
  · rintro rfl; rfl
  · cases items <;> simp [autoTravelCalls]

theorem trigger_first_item_only_witness :
    autoTravelCalls ["a", "b", "c"] = ["a"] :=
  (trigger_first_item_only ["a", "b", "c"] "a" ["b", "c"]).1 rfl

end WSM

namespace AutoM

/-- `currentAutomation.step` values reached by the embedded flow. -/
inductive Step where
  | travel
  | cvDetection
  | mouseMovement
deriving Repr, DecidableEq

/-- `currentAutomation.status` values reached by the embedded flow. -/
inductive StepStatus where
  | starting
  | traveling
  | detecting
  | movingMouse
deriving Repr, DecidableEq

/-- `this.currentAutomation` (websocket-manager.js AutomationManager,
lines 705-710): the triggering item, start time, current step and step
status. -/
structure AutoSession where
  itemId : String
  startTime : Nat
  step : Step
  status : StepStatus
deriving Repr, DecidableEq

/-- The AutomationManager state: the single-flight flag, the single
session slot, the two tracked timer handles (`automationTimeout`,
`cvDetectionTimeout`) and the multiset of armed settle-delay timers.
The settle-delay timers are armed by anonymous `setTimeout` calls
(lines 764-766 and 799-801) whose handles are never stored, so no
cleanup code can cancel them. -/
structure AMState where
  isAutomating : Bool
  currentAutomation : Option AutoSession
  automationTimeout : Option Nat
  cvDetectionTimeout : Option Nat
  settleTimers : List Nat
deriving Repr, DecidableEq

/-- Embeds `cleanupAutomation` (lines 1031-1055): clears the two
tracked timeout handles and resets the single-flight flag and session.
The untracked settle-delay timers cannot be touched. -/
def cleanupAutomation (s : AMState) : AMState :=
  { s with automationTimeout := none, cvDetectionTimeout := none,
           isAutomating := false, currentAutomation := none }

/-- Embeds `stopAutomation` (lines 1072-1078). -/
def stopAutomation (s : AMState) : AMState :=
  if s.isAutomating then cleanupAutomation s else s

/-- Embeds `handleAutomationError` (lines 1012-1029): with no current
session it returns without touching state; otherwise it emits a failure
and runs cleanup. -/
def handleAutomationError (s : AMState) : AMState :=
  match s.currentAutomation with
  | none => s
  | some _ => cleanupAutomation s

/-- Embeds `handleTravelTimeout` (lines 812-815). -/
def handleTravelTimeout (s : AMState) : AMState :=
  handleAutomationError s

/-- Embeds `handleCVTimeout` (lines 983-999): a no-op unless the
automation is still running with a session. -/
def handleCVTimeout (s : AMState) : AMState :=
  if s.isAutomating = false ∨ s.currentAutomation = none then s
  else handleAutomationError s

/-- Embeds `startCVDetection` (lines 817-861): reading
`currentAutomation.step` on a null session throws, is caught, and
`handleAutomationError` returns without a state change; otherwise the
session advances to detection and, if the collaborator's start
succeeds (`cvOk`), the detection timeout is armed, else the error path
cleans up. -/
def startCVDetection (cvOk : Bool) (tid : Nat) (s : AMState) : AMState :=
  match s.currentAutomation with
  | none => s
  | some a =>
    let a1 := { a with step := Step.cvDetection, status := StepStatus.detecting }
    let s1 := { s with currentAutomation := some a1 }
    if cvOk then { s1 with cvDetectionTimeout := some tid }
    else handleAutomationError s1

/-- A settle-delay timer `t` firing: it is consumed from the armed set
and its callback invokes `startCVDetection` (lines 764-766). -/
def fireSettleTimer (cvOk : Bool) (tid t : Nat) (s : AMState) : AMState :=
  startCVDetection cvOk tid { s with settleTimers := s.settleTimers.erase t }

/-- The session creation inside `startAutomation` (lines 704-710). -/
def startAutomationCreate (s : AMState) (item : String) (now : Nat) : AMState :=
  { s with isAutomating := true,
           currentAutomation :=
             some ⟨item, now, Step.travel, StepStatus.starting⟩ }

/-- The value returned by `startAutomation`. -/
inductive StartResult where
  | ok (automationId : Nat)
  | err (msg : String)
deriving Repr, DecidableEq

/-- The body of `startAutomation` after the guard (lines 703-724):
run `initiateTravel` (abstracted as `f`, returning the new state and
the message of a thrown error, if any); a throw is caught and runs
cleanup; otherwise the result reports `currentAutomation.startTime`,
which itself throws if the session has been cleared meanwhile. -/
def startAutomationRun (f : AMState → AMState × Option String)
    (s1 : AMState) : AMState × StartResult :=
  match f s1 with
  | (s2, some e) => (cleanupAutomation s2, StartResult.err e)
  | (s2, none) =>
    match s2.currentAutomation with
    | some a => (s2, StartResult.ok a.startTime)
    | none => (cleanupAutomation s2,
               StartResult.err "Cannot read properties of null")

/-- Embeds `startAutomation` (lines 697-725): the single-flight guard
followed by session creation and the travel step. -/
def startAutomation (f : AMState → AMState × Option String) (s : AMState)
    (item : String) (now : Nat) : AMState × StartResult :=
  if s.isAutomating then (s, StartResult.err "Automation already in progress")
  else startAutomationRun f (startAutomationCreate s item now)

/-- Embeds `initiateTravel` (lines 727-776) over the decisive inputs:
whether a hideout token is found and whether the queued travel request
reports immediate success.  A missing token throws inside the method's
own try, is caught, and runs the error cleanup without rethrowing;
otherwise the travel timeout is armed and, on immediate success, it is
cleared again and an anonymous settle-delay timer is armed. -/
def initiateTravel (tokenFound immediateSuccess : Bool) (tid settleT : Nat)
    (s : AMState) : AMState × Option String :=
  match s.currentAutomation with
  | none => (s, none)
  | some a =>
    let a1 := { a with step := Step.travel, status := StepStatus.traveling }
    let s1 := { s with currentAutomation := some a1 }
    if tokenFound = false then (handleAutomationError s1, none)
    else
      let s2 := { s1 with automationTimeout := some tid }
      if immediateSuccess then
        ({ s2 with automationTimeout := none,
                   settleTimers := s2.settleTimers ++ [settleT] }, none)
      else (s2, none)

/-- C1: at most one automation session is active at any instant — while
a session is active, `startAutomation` returns the "Automation already
in progress" failure and leaves the whole state (session fields and all
armed timers) unchanged, whatever the travel step would do; while no
session is active, exactly one new session is created (the single slot
goes from `none` to the new session for the triggering item) before the
travel step runs. -/
theorem startAutomation_single_flight
    (f : AMState → AMState × Option String) (s : AMState) (item : String)
    (now : Nat) :
    (s.isAutomating = true →
      startAutomation f s item now =
        (s, StartResult.err "Automation already in progress")) ∧
    (s.isAutomating = false →
      startAutomation f s item now =
        startAutomationRun f (startAutomationCreate s item now) ∧
      (startAutomationCreate s item now).currentAutomation =
        some ⟨item, now, Step.travel, StepStatus.starting⟩ ∧
      (startAutomationCreate s item now).isAutomating = true) := by
  constructor
  · intro h; simp [startAutomation, h]
  · intro h; exact ⟨by simp [startAutomation, h], rfl, rfl⟩

theorem startAutomation_single_flight_witness :
    startAutomation (fun s => (s, none))
      ⟨true, some ⟨"x", 3, Step.travel, StepStatus.traveling⟩, some 1, none, [7]⟩
      "y" 9 =
    (⟨true, some ⟨"x", 3, Step.travel, StepStatus.traveling⟩, some 1, none, [7]⟩,
     StartResult.err "Automation already in progress") :=
  (startAutomation_single_flight (fun s => (s, none))
    ⟨true, some ⟨"x", 3, Step.travel, StepStatus.traveling⟩, some 1, none, [7]⟩
    "y" 9).1 rfl

/-- C8 fails on the code: the settle-delay continuation between travel
success and detection is an anonymous `setTimeout` whose handle is never
stored, so `stopAutomation` cannot cancel it.  Concretely, stopping a
session that is inside its settle window leaves the settle timer armed,
and its callback still fires afterward. -/
theorem stop_leaves_settle_timer :
    (stopAutomation
      ⟨true, some ⟨"x", 0, Step.travel, StepStatus.traveling⟩, none, none,
       [7]⟩).settleTimers = [7] ∧
    [7] ≠ ([] : List Nat) :=
  ⟨rfl, by decide⟩

/-- C8 amended: `stop()` during any non-terminal state cancels the two
tracked timers (travel timeout and detection timeout) and clears the
session, so the travel-timeout and detection-timeout callbacks and the
late settle-delay continuation are all silent no-ops on the stopped
state — the untracked settle-delay timer itself, however, stays armed
and does fire; afterwards a new `startAutomation` call succeeds
immediately. -/
theorem stop_cancels_tracked_timers (s : AMState) (h : s.isAutomating = true)
    (cvOk : Bool) (tid t : Nat) :
    (stopAutomation s).automationTimeout = none ∧
    (stopAutomation s).cvDetectionTimeout = none ∧
    (stopAutomation s).isAutomating = false ∧
    (stopAutomation s).currentAutomation = none ∧
    (stopAutomation s).settleTimers = s.settleTimers ∧
    fireSettleTimer cvOk tid t (stopAutomation s) =
      { stopAutomation s with
          settleTimers := (stopAutomation s).settleTimers.erase t } ∧
    handleTravelTimeout (stopAutomation s) = stopAutomation s ∧
    handleCVTimeout (stopAutomation s) = stopAutomation s ∧
    (∀ f item now,
      f (startAutomationCreate (stopAutomation s) item now) =
        (startAutomationCreate (stopAutomation s) item now, none) →
      startAutomation f (stopAutomation s) item now =
        (startAutomationCreate (stopAutomation s) item now,
         StartResult.ok now)) := by
  simp only [stopAutomation, h, if_true]
  refine ⟨rfl, rfl, rfl, rfl, rfl, rfl, rfl, rfl, ?_⟩
  intro f item now hf
  simp only [startAutomation, startAutomationRun]
  rw [show (cleanupAutomation s).isAutomating = false from rfl]
  simp only [Bool.false_eq_true, if_false]
  rw [hf]
  rfl

theorem stop_cancels_tracked_timers_witness :
    (stopAutomation
      ⟨true, some ⟨"x", 0, Step.travel, StepStatus.traveling⟩, some 1, some 2,
       [7]⟩).automationTimeout = none :=
  (stop_cancels_tracked_timers
    ⟨true, some ⟨"x", 0, Step.travel, StepStatus.traveling⟩, some 1, some 2,
     [7]⟩ rfl true 0 7).1

end AutoM
